import Mathlib

/-!
# Verification of the codecraft PR agent client

A shallow embedding of the orchestration client in `mcp_gemini_client.py`
and the standalone webhook script `test_slack.py`, together with theorems
checking the behavioural properties stated in the repository's design
specification.

External collaborators (the MCP tool host reached through the session, the
Gemini completion endpoint, and `json.loads`) are modelled as oracles
passed to each function; side effects (console prints, tool invocations,
AI calls, the HTTP POST of the webhook script, file writes and clipboard
copies) are recorded in an explicit event trace.  Python exceptions are
modelled with `Except PyError`; a raised exception short-circuits the rest
of a function body but the events that happened before it are kept, as in
the source.
-/

namespace PRAgent

/-- JSON values, the codomain of the `json.loads` oracle. -/
inductive Json where
  | str (s : String)
  | num (n : Int)
  | bool (b : Bool)
  | null
  | arr (items : List Json)
  | obj (fields : List (String × Json))

/-- Observable effects of a run, in the order they happen. -/
inductive Event where
  | printMsg (s : String)
  | toolCall (name : String) (args : List (String × String))
  | geminiCall (fullPrompt : String)
  | httpPost (url : String) (textBody : String) (mrkdwn : Bool) (timeoutSec : Nat)
  | fileWrite (filename : String) (content : String)
  | clipboardCopy (content : String)
  deriving DecidableEq, Repr

/-- Python exception kinds raised by the client code. -/
inductive PyError where
  | runtimeError (msg : String)
  | valueError (msg : String)
  | keyError (key : String)
  | typeError (msg : String)
  deriving DecidableEq, Repr

/-- `str(e)` for the exception kinds above (Python renders a `KeyError`
with quotes around the missing key). -/
def PyError.pyStr : PyError → String
  | .runtimeError m => m
  | .valueError m => m
  | .keyError k => "'" ++ k ++ "'"
  | .typeError m => m

/-- The response of `session.call_tool`: the text of each content block. -/
structure ToolResponse where
  content : List String
  deriving DecidableEq, Repr

/-- The external collaborators, treated as opaque oracles:
`callTool` is the MCP session's tool dispatch (transport assumed up),
`gemini` is `model.generate_content` followed by the `.text` access
(`Except.error` is a raised exception), `parseJson` is `json.loads`
(`none` is a raised `json.JSONDecodeError`), and `pyperclipAvailable`
is whether `import pyperclip` succeeds. -/
structure Oracles where
  callTool : String → List (String × String) → ToolResponse
  gemini : String → Except String String
  parseJson : String → Option Json
  pyperclipAvailable : Bool

/-- The client's relevant state: whether `self.session` is set, and the
key sets of `self.available_tools` / `self.available_prompts`. -/
structure ClientState where
  connected : Bool
  availableTools : List String
  availablePrompts : List String

/-- Result of running a stateful code fragment: the event trace it
produced and either its value or the Python exception it raised. -/
structure PyResult (α : Type) where
  events : List Event
  result : Except PyError α

/-- Sequencing: run `r`; if it raised, keep its trace and the exception,
otherwise run the continuation and append its trace. -/
def PyResult.andThen {α β : Type} (r : PyResult α) (f : α → PyResult β) : PyResult β :=
  match r.result with
  | .error e => { events := r.events, result := .error e }
  | .ok a =>
      let s := f a
      { events := r.events ++ s.events, result := s.result }

/-- Prepend already-emitted events to a fragment's result. -/
def PyResult.withEvents {α : Type} (pre : List Event) (r : PyResult α) : PyResult α :=
  { events := pre ++ r.events, result := r.result }

/-- `"="` repeated `n` times, for the `'='*n` separator prints. -/
def sepLine (n : Nat) : String :=
  String.mk (List.replicate n '=')

/-- The whitespace characters stripped by Python's `str.strip()`. -/
def pyIsSpace (c : Char) : Bool :=
  c == ' ' || c == '\t' || c == '\n' || c == '\r' || c == '\x0b' || c == '\x0c'

/-- Python's `str.strip()`: drop leading and trailing whitespace. -/
def py_strip (s : String) : String :=
  String.mk (((s.data.dropWhile pyIsSpace).reverse.dropWhile pyIsSpace).reverse)

/-- ASCII lower-casing of one character, as `str.lower()` does on the
ASCII inputs that occur here. -/
def pyToLower (c : Char) : Char :=
  if 'A' ≤ c ∧ c ≤ 'Z' then Char.ofNat (c.toNat + 32) else c

/-- Python's `str.lower()`. -/
def py_lower (s : String) : String :=
  String.mk (s.data.map pyToLower)

/-- Python's slice `s[:n]`: the first `n` characters (all of `s` when it
is shorter). -/
def py_take (s : String) (n : Nat) : String :=
  String.mk (s.data.take n)

/-- `as` is a prefix of `bs`. -/
def listIsPrefix : List Char → List Char → Bool
  | [], _ => true
  | _ :: _, [] => false
  | a :: as, b :: bs => a == b && listIsPrefix as bs

/-- `needle` occurs contiguously in the second list. -/
def listIsInfix (needle : List Char) : List Char → Bool
  | [] => listIsPrefix needle []
  | hay@(_ :: rest) => listIsPrefix needle hay || listIsInfix needle rest

/-- Python's substring test `needle in hay` on strings. -/
def py_in_str (needle hay : String) : Bool :=
  listIsInfix needle.data hay.data

/-- Python's `k in j` containment test as used on decoded JSON values:
key membership for dicts, substring containment for strings, element
membership for lists.  (On numbers, booleans and `None`, Python would
raise a `TypeError`; those shapes never reach the checked call sites and
are mapped to `false`.) -/
def pyIn (k : String) (j : Json) : Bool :=
  match j with
  | .obj fields => fields.any (fun p => p.1 == k)
  | .str s => py_in_str k s
  | .arr items => items.any (fun x => match x with | Json.str s => s == k | _ => false)
  | _ => false

/-- Dictionary lookup `d.get(k)`: `some` value for a present key of a
dict, `none` otherwise. -/
def jsonLookup (j : Json) (k : String) : Option Json :=
  match j with
  | .obj fields => (fields.find? (fun p => p.1 == k)).map (·.2)
  | _ => none

/-- Dictionary indexing `d[k]`: raises `KeyError` on a missing key and
`TypeError` when the value is not a dict. -/
def pyIndex (j : Json) (k : String) : Except PyError Json :=
  match j with
  | .obj fields =>
      match fields.find? (fun p => p.1 == k) with
      | some p => .ok p.2
      | none => .error (.keyError k)
  | _ => .error (.typeError "value is not subscriptable by string key")

/-- `str(v)` on a decoded JSON value as interpolated into f-strings.
Strings interpolate verbatim; containers are rendered approximately
(the source only ever interpolates leaf values at these sites). -/
def Json.pyStr : Json → String
  | .str s => s
  | .num n => toString n
  | .bool true => "True"
  | .bool false => "False"
  | .null => "None"
  | .arr _ => "<list>"
  | .obj _ => "<dict>"

/-- The first content block's text, or the empty string when the
response carries no content (`result.content[0].text` guarded by the
truthiness check on `result.content`). -/
def firstText (r : ToolResponse) : String :=
  match r.content with
  | [] => ""
  | t :: _ => t

/-- `MCPGeminiClient.call_mcp_tool` (mcp_gemini_client.py:174-198):
raises `RuntimeError` when no session is established, `ValueError` when
the tool name is not in the catalog, and otherwise forwards the call and
returns the first content block's text (empty string for no content). -/
def call_mcp_tool (st : ClientState) (o : Oracles) (tool_name : String)
    (arguments : List (String × String)) : PyResult String :=
  if st.connected = false then
    { events := [], result := .error (.runtimeError "Not connected to MCP server") }
  else if (st.availableTools.contains tool_name) = false then
    { events := [],
      result := .error (.valueError
        ("Tool '" ++ tool_name ++ "' not available. Available tools: "
          ++ toString st.availableTools)) }
  else
    { events := [.printMsg ("🔧 Calling tool: " ++ tool_name),
                 .toolCall tool_name arguments],
      result := .ok (firstText (o.callTool tool_name arguments)) }

/-- The prompt actually submitted to Gemini: `f"{context}\n\n{prompt}"`
when `context` is truthy (non-empty), else the prompt alone
(mcp_gemini_client.py:236). -/
def gemini_full_prompt (prompt context : String) : String :=
  if context = "" then prompt else context ++ "\n\n" ++ prompt

/-- `MCPGeminiClient.analyze_with_gemini` (mcp_gemini_client.py:226-243):
submits the combined prompt and returns the response text; every
exception of the remote call is caught and converted to an in-band
error string. -/
def analyze_with_gemini (o : Oracles) (prompt : String) (context : String) :
    String × List Event :=
  let full_prompt := gemini_full_prompt prompt context
  match o.gemini full_prompt with
  | .ok text =>
      (text, [.printMsg "🧠 Analyzing with Gemini...", .geminiCall full_prompt])
  | .error e =>
      ("Error calling Gemini API: " ++ e,
       [.printMsg "🧠 Analyzing with Gemini...", .geminiCall full_prompt])

/-- The actions the interactive shell can dispatch to. -/
inductive ShellAction where
  | quitShell
  | analyze
  | ciStatus
  | slackAlert
  | listTools
  | listPrompts
  | showHelp
  | unknown (cmd : String)
  deriving DecidableEq, Repr

/-- One iteration of `interactive_mode`'s dispatch
(mcp_gemini_client.py:124-141): the line is stripped and lower-cased,
then matched against the fixed command table. -/
def shell_dispatch (raw : String) : ShellAction :=
  let command := py_lower (py_strip raw)
  if ["quit", "exit", "q", "7"].contains command then .quitShell
  else if ["analyze", "1"].contains command then .analyze
  else if ["ci-status", "2"].contains command then .ciStatus
  else if ["slack-alert", "3"].contains command then .slackAlert
  else if ["tools", "4"].contains command then .listTools
  else if ["prompts", "5"].contains command then .listPrompts
  else if ["help", "6"].contains command then .showHelp
  else .unknown command

/-- Outcome of `requests.post` in the webhook script: an HTTP response
or a raised transport exception. -/
inductive HttpOutcome where
  | response (status : Nat) (text : String)
  | transportError (msg : String)
  deriving DecidableEq, Repr

/-- The fixed test message of `test_slack.py`. -/
def slack_test_message : String := "🧪 Test notification from PR Agent"

/-- `test_slack_notification` (test_slack.py:26-60): posts the fixed
payload `\x7b"text": message, "mrkdwn": true\x7d` with timeout 10 and
returns `true` exactly on HTTP status 200; any other status and any
transport exception yield `false`. -/
def test_slack_notification (webhook_url : Option String)
    (post : String → String → Bool → Nat → HttpOutcome) : Bool × List Event :=
  let start := [Event.printMsg
    ("🔗 SLACK_WEBHOOK_URL: " ++ (if webhook_url.isSome then "True" else "False"))]
  match webhook_url with
  | none =>
      (false, start ++ [.printMsg "❌ SLACK_WEBHOOK_URL environment variable not set"])
  | some url =>
      let attempted := start
        ++ [.printMsg ("📤 Sending test message: " ++ slack_test_message),
            .httpPost url slack_test_message true 10]
      match post url slack_test_message true 10 with
      | .response status text =>
          if status = 200 then
            (true, attempted ++ [.printMsg "✅ Slack notification sent successfully!"])
          else
            (false, attempted ++ [.printMsg
              ("❌ Slack notification failed: " ++ toString status ++ " - " ++ text)])
      | .transportError e =>
          (false, attempted ++ [.printMsg ("❌ Error sending Slack notification: " ++ e)])

/-- The fixed analysis instruction of `analyze_pr_changes`
(mcp_gemini_client.py:350-359). -/
def analysis_prompt : String :=
  "\n        Analyze the following git changes and provide:\n        1. A summary of what this PR does\n        2. The type of change (bug, feature, docs, refactor, test, performance, security)\n        3. Key files affected\n        4. Potential risks or considerations\n        5. Suggested PR title and description\n        \n        Be concise but thorough in your analysis.\n        "

/-- The fixed classification instruction of `generate_pr_description`
(mcp_gemini_client.py:416-419). -/
def change_type_prompt : String :=
  "\n        Based on your previous analysis, what is the primary type of this change? \n        Respond with just one word: bug, feature, docs, refactor, test, performance, or security\n        "

/-- The template-filling instruction of `generate_pr_description`, an
f-string over the analysis text and the raw template content
(mcp_gemini_client.py:444-463). -/
def fill_template_prompt (ai_analysis template_content : String) : String :=
  "\n            You are an expert software developer creating a professional PR description.\n            \n            CONTEXT:\n            "
  ++ ai_analysis
  ++ "\n            \n            TASK:\n            Fill out this PR template with specific, accurate content based on the git changes above:\n            \n            "
  ++ template_content
  ++ "\n            \n            REQUIREMENTS:\n            - Use specific file names, function names, and technical details from the analysis\n            - Write clear, concise descriptions\n            - Include relevant technical context\n            - Keep the same template structure and formatting\n            - Replace all placeholder text with actual content\n            \n            Generate a complete, professional PR description:\n            "

/-- The alert-compression instruction of `send_ci_alert`, after
`.format(workflow_data=...)` (mcp_gemini_client.py:300-310). -/
def alert_prompt (workflow_data : String) : String :=
  "\n            Create a Slack alert message based on this CI status:\n            "
  ++ workflow_data
  ++ "\n            \n            Format it as a concise Slack message with:\n            - Current status (✅ or ❌)\n            - Key information\n            - Any required actions\n            \n            Keep it under 200 characters for Slack.\n            "

/-- The argument dict of the diff fetch (mcp_gemini_client.py:337-339);
Python only adds `working_directory` when it is truthy, so an empty
string is dropped like `None`. -/
def changes_args (base_branch : String) (working_directory : Option String) :
    List (String × String) :=
  match working_directory with
  | some wd =>
      if wd = "" then [("base_branch", base_branch)]
      else [("base_branch", base_branch), ("working_directory", wd)]
  | none => [("base_branch", base_branch)]

/-- The decode step of `analyze_pr_changes` (mcp_gemini_client.py:344-347):
`json.loads` guarded by a `JSONDecodeError` handler that substitutes an
`error`/`raw` marker object. -/
def parse_changes_data (o : Oracles) (raw : String) : Json :=
  match o.parseJson raw with
  | some j => j
  | none => Json.obj [("error", .str "Failed to parse changes data"), ("raw", .str raw)]

/-- The result dict of `analyze_pr_changes` (mcp_gemini_client.py:363-366). -/
structure PRAnalysis where
  changes_data : Json
  ai_analysis : String

/-- `MCPGeminiClient.analyze_pr_changes` (mcp_gemini_client.py:326-366):
fetch the diff through the tool gateway, decode it, and ask Gemini for
the fixed summary analysis with the raw diff text as context.  The
Gemini call is unconditional: it happens whether or not the decoded
payload carries an `error` key. -/
def analyze_pr_changes (st : ClientState) (o : Oracles) (base_branch : String)
    (working_directory : Option String) : PyResult PRAnalysis :=
  (call_mcp_tool st o "analyze_file_changes"
      (changes_args base_branch working_directory)).andThen
    (fun changes_data =>
      let changes_json := parse_changes_data o changes_data
      let g := analyze_with_gemini o analysis_prompt changes_data
      { events := g.2,
        result := .ok { changes_data := changes_json, ai_analysis := g.1 } })

/-- The decode step of `suggest_pr_template`
(mcp_gemini_client.py:384-390): on `JSONDecodeError`, print the raw
response and substitute the `error`/`raw` marker object. -/
def parse_template_data (o : Oracles) (raw : String) : Json × List Event :=
  match o.parseJson raw with
  | some j => (j, [])
  | none =>
      (Json.obj [("error", .str "Failed to parse template data"), ("raw", .str raw)],
       [.printMsg ("❌ Raw template response: " ++ raw)])

/-- `MCPGeminiClient.suggest_pr_template` (mcp_gemini_client.py:368-390). -/
def suggest_pr_template (st : ClientState) (o : Oracles)
    (analysis_summary change_type : String) : PyResult Json :=
  (call_mcp_tool st o "suggest_template"
      [("changes_summary", analysis_summary), ("change_type", change_type)]).andThen
    (fun template_data =>
      let p := parse_template_data o template_data
      { events := p.2, result := .ok p.1 })

/-- `MCPGeminiClient.send_ci_alert` (mcp_gemini_client.py:285-324): guard
on the notification tool being in the catalog, then fetch workflow
status, compress it with Gemini and forward it; the surrounding
`try`/`except` turns every raised exception into an error print. -/
def send_ci_alert (st : ClientState) (o : Oracles) : List Event :=
  let start : List Event :=
    [.printMsg "📢 Sending CI Alert...", .printMsg (sepLine 25)]
  if (st.availableTools.contains "send_slack_notification") = false then
    start ++ [.printMsg "❌ Slack notification tool not available"]
  else
    let w := call_mcp_tool st o "get_workflow_status" []
    match w.result with
    | .error e =>
        start ++ w.events ++ [.printMsg ("❌ Error sending Slack alert: " ++ e.pyStr)]
    | .ok workflow_data =>
        let m := analyze_with_gemini o (alert_prompt workflow_data) ""
        let s := call_mcp_tool st o "send_slack_notification" [("message", m.1)]
        match s.result with
        | .error e =>
            start ++ w.events ++ m.2 ++ s.events
              ++ [.printMsg ("❌ Error sending Slack alert: " ++ e.pyStr)]
        | .ok result =>
            start ++ w.events ++ m.2 ++ s.events
              ++ [.printMsg "📤 Slack Message:", .printMsg m.1,
                  .printMsg ("\n📋 Result: " ++ result)]

/-- `MCPGeminiClient.post_generation_options` (mcp_gemini_client.py:478-513):
the post-generation menu.  `choice_input` is the operator's line, which
the source strips before matching; choice 2 truncates the description to
its first 500 characters and appends an ellipsis before forwarding. -/
def post_generation_options (st : ClientState) (o : Oracles) (choice_input : String)
    (pr_description change_type : String) : PyResult Unit :=
  let menuEvents : List Event :=
    [.printMsg ("\n" ++ sepLine 40),
     .printMsg "📋 What would you like to do next?",
     .printMsg "1. Save to file",
     .printMsg "2. Send Slack notification",
     .printMsg "3. Copy to clipboard",
     .printMsg "4. Continue"]
  let choice := py_strip choice_input
  if choice = "1" then
    let filename := "pr_description_" ++ change_type ++ ".md"
    { events := menuEvents ++ [.fileWrite filename pr_description,
        .printMsg ("💾 Saved to " ++ filename)],
      result := .ok () }
  else if choice = "2" then
    if st.availableTools.contains "send_slack_notification" then
      let slack_message := "📝 New PR Ready for Review (" ++ change_type ++ ")\n\n"
        ++ py_take pr_description 500 ++ "..."
      PyResult.withEvents menuEvents
        ((call_mcp_tool st o "send_slack_notification"
            [("message", slack_message)]).andThen
          (fun result =>
            { events := [.printMsg ("📤 Slack result: " ++ result)], result := .ok () }))
    else
      { events := menuEvents ++ [.printMsg "❌ Slack tool not available"],
        result := .ok () }
  else if choice = "3" then
    if o.pyperclipAvailable then
      { events := menuEvents ++ [.clipboardCopy pr_description,
          .printMsg "📋 Copied to clipboard"],
        result := .ok () }
    else
      { events := menuEvents ++ [.printMsg
          "❌ pyperclip not installed. Install with: pip install pyperclip"],
        result := .ok () }
  else
    { events := menuEvents, result := .ok () }

/-- Steps 4-5 of `generate_pr_description`
(mcp_gemini_client.py:436-473), reached when the template suggestion has
no `error` key: print the recommendation (each field access can raise
`KeyError`), fill the template with a final Gemini call, and hand off to
the post-generation menu. -/
def finish_pr_description (st : ClientState) (o : Oracles) (choice_input : String)
    (ai_analysis change_type : String) (template_suggestion : Json) : PyResult Unit :=
  let hdr : List Event :=
    [.printMsg ("\n" ++ sepLine 60),
     .printMsg "📝 Recommended PR Template:",
     .printMsg (sepLine 60)]
  match pyIndex template_suggestion "recommended_template" with
  | .error e => { events := hdr, result := .error e }
  | .ok rt =>
    match pyIndex rt "type" with
    | .error e => { events := hdr, result := .error e }
    | .ok rtype =>
      let hdr2 := hdr ++ [.printMsg ("Template: " ++ rtype.pyStr)]
      match pyIndex template_suggestion "reasoning" with
      | .error e => { events := hdr2, result := .error e }
      | .ok reasoning =>
        let hdr3 := hdr2 ++ [.printMsg ("Reasoning: " ++ reasoning.pyStr)]
        match pyIndex template_suggestion "template_content" with
        | .error e => { events := hdr3, result := .error e }
        | .ok tcontent =>
          let hdr4 := hdr3 ++ [.printMsg ("\nTemplate Content:\n" ++ tcontent.pyStr)]
          let fill := analyze_with_gemini o
            (fill_template_prompt ai_analysis tcontent.pyStr) ""
          PyResult.withEvents
            (hdr4 ++ fill.2
              ++ [.printMsg ("\n" ++ sepLine 60),
                  .printMsg "✅ Generated PR Description:",
                  .printMsg (sepLine 60),
                  .printMsg fill.1])
            (post_generation_options st o choice_input fill.1 change_type)

/-- `MCPGeminiClient.generate_pr_description` (mcp_gemini_client.py:392-476):
the full PR analysis workflow.  `choice_input` is the operator's answer
to the post-generation menu. -/
def generate_pr_description (st : ClientState) (o : Oracles)
    (working_directory : Option String) (base_branch : String)
    (choice_input : String) : PyResult Unit :=
  PyResult.withEvents [.printMsg "🔍 Analyzing PR Changes...", .printMsg (sepLine 40)]
    ((analyze_pr_changes st o base_branch working_directory).andThen (fun analysis =>
      if pyIn "error" analysis.changes_data then
        { events := [.printMsg ("❌ Error analyzing changes: "
            ++ (((jsonLookup analysis.changes_data "error").map Json.pyStr).getD ""))],
          result := .ok () }
      else
        let headerEvents : List Event :=
          [.printMsg "📊 Changes analyzed successfully!",
           .printMsg ("\n" ++ sepLine 60),
           .printMsg "🤖 AI Analysis:",
           .printMsg (sepLine 60),
           .printMsg analysis.ai_analysis]
        let classify := analyze_with_gemini o change_type_prompt analysis.ai_analysis
        let change_type := py_lower (py_strip classify.1)
        PyResult.withEvents
          (headerEvents ++ classify.2
            ++ [.printMsg ("\n🎯 Identified change type: " ++ change_type),
                .printMsg "📋 Getting template suggestion..."])
          ((suggest_pr_template st o analysis.ai_analysis change_type).andThen
            (fun template_suggestion =>
              if (pyIn "error" template_suggestion) = false then
                finish_pr_description st o choice_input analysis.ai_analysis
                  change_type template_suggestion
              else
                { events := [.printMsg ("❌ Error getting template: "
                    ++ (((jsonLookup template_suggestion "error").map
                          Json.pyStr).getD "Unknown error"))],
                  result := .ok () }))))

/-! ## Helper predicates and lemmas -/

/-- Whether an event is an AI call. -/
def isGeminiEvent : Event → Bool
  | .geminiCall _ => true
  | _ => false

/-- Whether an event is a tool invocation. -/
def isToolCallEvent : Event → Bool
  | .toolCall _ _ => true
  | _ => false

/-- Whether an event is an invocation of the named tool. -/
def isToolCallNamed (name : String) : Event → Bool
  | .toolCall n _ => n == name
  | _ => false

@[simp] theorem PyResult.withEvents_events {α : Type} (pre : List Event) (r : PyResult α) :
    (PyResult.withEvents pre r).events = pre ++ r.events := rfl

@[simp] theorem PyResult.withEvents_result {α : Type} (pre : List Event) (r : PyResult α) :
    (PyResult.withEvents pre r).result = r.result := rfl

theorem PyResult.andThen_events_of_ok {α β : Type} {r : PyResult α} {a : α}
    (f : α → PyResult β) (h : r.result = .ok a) :
    (r.andThen f).events = r.events ++ (f a).events := by
  unfold PyResult.andThen
  rw [h]

theorem PyResult.andThen_result_of_ok {α β : Type} {r : PyResult α} {a : α}
    (f : α → PyResult β) (h : r.result = .ok a) :
    (r.andThen f).result = (f a).result := by
  unfold PyResult.andThen
  rw [h]

theorem PyResult.events_mem_andThen {α β : Type} {r : PyResult α} {f : α → PyResult β}
    {e : Event} (h : e ∈ r.events) : e ∈ (r.andThen f).events := by
  unfold PyResult.andThen
  cases r.result <;> simp [h]

theorem andThen_ok_left {α β : Type} {r : PyResult α} {f : α → PyResult β} {b : β}
    (h : (r.andThen f).result = .ok b) : ∃ a, r.result = .ok a := by
  unfold PyResult.andThen at h
  cases hr : r.result with
  | error e => rw [hr] at h; simp at h
  | ok a => exact ⟨a, rfl⟩

/-- A successful tool call implies the session was live and the tool was
in the catalog. -/
theorem call_mcp_tool_ok_conditions {st : ClientState} {o : Oracles}
    {tool_name : String} {arguments : List (String × String)} {s : String}
    (h : (call_mcp_tool st o tool_name arguments).result = .ok s) :
    st.connected = true ∧ st.availableTools.contains tool_name = true := by
  unfold call_mcp_tool at h
  by_cases h1 : st.connected = false
  · rw [if_pos h1] at h
    simp at h
  · rw [if_neg h1] at h
    by_cases h2 : st.availableTools.contains tool_name = false
    · rw [if_pos h2] at h
      simp at h
    · exact ⟨by simpa using h1, by simpa using h2⟩

/-- Whatever the completion oracle does, `analyze_with_gemini` emits the
status print followed by one AI call at the combined prompt. -/
theorem analyze_with_gemini_events (o : Oracles) (prompt context : String) :
    (analyze_with_gemini o prompt context).2
      = [.printMsg "🧠 Analyzing with Gemini...",
         .geminiCall (gemini_full_prompt prompt context)] := by
  cases hg : o.gemini (gemini_full_prompt prompt context) <;>
    simp [analyze_with_gemini, hg]

/-! ## Claim theorems -/

/-- C2: for every instruction and context and every failure of the
remote completion call, `analyze_with_gemini` does not raise (its result
type is a plain pair, every oracle failure is consumed): on success it
returns the response text and on failure it returns the error marker
string `"Error calling Gemini API: "` followed by the exception text. -/
theorem analyze_with_gemini_never_raises (o : Oracles) (prompt context : String) :
    (∃ t, o.gemini (gemini_full_prompt prompt context) = .ok t ∧
        (analyze_with_gemini o prompt context).1 = t) ∨
    (∃ e, o.gemini (gemini_full_prompt prompt context) = .error e ∧
        (analyze_with_gemini o prompt context).1 = "Error calling Gemini API: " ++ e) := by
  cases hg : o.gemini (gemini_full_prompt prompt context) with
  | ok t => exact Or.inl ⟨t, rfl, by simp [analyze_with_gemini, hg]⟩
  | error e => exact Or.inr ⟨e, rfl, by simp [analyze_with_gemini, hg]⟩

/-- C3: `call_mcp_tool` raises `RuntimeError` when no session is
established, raises `ValueError` when the tool name is absent from the
catalog, and otherwise forwards the call and returns the text of the
first content block, or the empty string when the response carries no
content. -/
theorem call_mcp_tool_contract (st : ClientState) (o : Oracles) (tool_name : String)
    (arguments : List (String × String)) :
    (st.connected = false →
      (call_mcp_tool st o tool_name arguments).result
        = .error (.runtimeError "Not connected to MCP server")) ∧
    (st.connected = true → st.availableTools.contains tool_name = false →
      (call_mcp_tool st o tool_name arguments).result
        = .error (.valueError ("Tool '" ++ tool_name ++ "' not available. Available tools: "
            ++ toString st.availableTools))) ∧
    (st.connected = true → st.availableTools.contains tool_name = true →
      (call_mcp_tool st o tool_name arguments).result
        = .ok (firstText (o.callTool tool_name arguments)) ∧
      Event.toolCall tool_name arguments ∈ (call_mcp_tool st o tool_name arguments).events ∧
      ((o.callTool tool_name arguments).content = [] →
        (call_mcp_tool st o tool_name arguments).result = .ok "")) := by
  refine ⟨fun h1 => ?_, fun h1 h2 => ?_, fun h1 h2 => ⟨?_, ?_, fun hc => ?_⟩⟩
  · unfold call_mcp_tool
    rw [if_pos h1]
  · unfold call_mcp_tool
    rw [if_neg (by simp [h1]), if_pos h2]
  · unfold call_mcp_tool
    rw [if_neg (by simp [h1]), if_neg (by simpa using h2)]
  · unfold call_mcp_tool
    rw [if_neg (by simp [h1]), if_neg (by simpa using h2)]
    simp
  · unfold call_mcp_tool
    rw [if_neg (by simp [h1]), if_neg (by simpa using h2)]
    simp [firstText, hc]

/-- A mock oracle set used by concrete witnesses. -/
def mock_oracles : Oracles :=
  { callTool := fun _ _ => ⟨["pong"]⟩
    gemini := fun _ => .ok "ok"
    parseJson := fun _ => none
    pyperclipAvailable := false }

/-- Witness for C3: the three branches at concrete inputs. -/
theorem call_mcp_tool_contract_witness :
    (call_mcp_tool ⟨false, ["ping"], []⟩ mock_oracles "ping" []).result
      = .error (.runtimeError "Not connected to MCP server") ∧
    (call_mcp_tool ⟨true, [], []⟩ mock_oracles "ping" []).result
      = .error (.valueError ("Tool 'ping' not available. Available tools: "
          ++ toString ([] : List String))) ∧
    (call_mcp_tool ⟨true, ["ping"], []⟩ mock_oracles "ping" []).result = .ok "pong" :=
  ⟨(call_mcp_tool_contract ⟨false, ["ping"], []⟩ mock_oracles "ping" []).1 rfl,
   (call_mcp_tool_contract ⟨true, [], []⟩ mock_oracles "ping" []).2.1 rfl rfl,
   ((call_mcp_tool_contract ⟨true, ["ping"], []⟩ mock_oracles "ping" []).2.2 rfl
      (by decide)).1⟩

/-- C4: when the decode oracle rejects the tool response, both decode
steps produce the marker object carrying an `error` field and the
original text under `raw`; both are total functions, so no fault
escapes. -/
theorem parse_failure_wraps_error_and_raw (o : Oracles) (raw : String)
    (h : o.parseJson raw = none) :
    parse_changes_data o raw
      = Json.obj [("error", .str "Failed to parse changes data"), ("raw", .str raw)] ∧
    (parse_template_data o raw).1
      = Json.obj [("error", .str "Failed to parse template data"), ("raw", .str raw)] ∧
    pyIn "error" (parse_changes_data o raw) = true ∧
    jsonLookup (parse_changes_data o raw) "raw" = some (.str raw) ∧
    pyIn "error" ((parse_template_data o raw).1) = true ∧
    jsonLookup ((parse_template_data o raw).1) "raw" = some (.str raw) := by
  refine ⟨?_, ?_, ?_, ?_, ?_, ?_⟩ <;>
    simp [parse_changes_data, parse_template_data, h, pyIn, jsonLookup, List.find?]

/-- Witness for C4 at a concrete unparseable response. -/
theorem parse_failure_wraps_error_and_raw_witness :
    mock_oracles.parseJson "not json" = none ∧
    pyIn "error" (parse_changes_data mock_oracles "not json") = true ∧
    jsonLookup (parse_changes_data mock_oracles "not json") "raw"
      = some (.str "not json") :=
  ⟨rfl,
   (parse_failure_wraps_error_and_raw mock_oracles "not json" rfl).2.2.1,
   (parse_failure_wraps_error_and_raw mock_oracles "not json" rfl).2.2.2.1⟩

/-- C6: the webhook script posts the fixed payload (`text` field is the
test message, `mrkdwn` is true) with timeout 10, and returns `true`
exactly when the HTTP status is 200; any other status and any transport
error yield `false` (the function is total, so no exception escapes). -/
theorem test_slack_notification_contract (url : String)
    (post : String → String → Bool → Nat → HttpOutcome) :
    Event.httpPost url slack_test_message true 10
      ∈ (test_slack_notification (some url) post).2 ∧
    ((test_slack_notification (some url) post).1 = true
      ↔ ∃ t, post url slack_test_message true 10 = .response 200 t) := by
  unfold test_slack_notification
  cases h : post url slack_test_message true 10 with
  | response status text =>
      by_cases hs : status = 200 <;> simp [h, hs]
  | transportError e => simp [h]

/-- C7: every keyword alias of the interactive shell's command table
dispatches to the same action as its numeric alias. -/
theorem shell_dispatch_aliases :
    shell_dispatch "analyze" = ShellAction.analyze
      ∧ shell_dispatch "1" = ShellAction.analyze ∧
    shell_dispatch "ci-status" = ShellAction.ciStatus
      ∧ shell_dispatch "2" = ShellAction.ciStatus ∧
    shell_dispatch "slack-alert" = ShellAction.slackAlert
      ∧ shell_dispatch "3" = ShellAction.slackAlert ∧
    shell_dispatch "tools" = ShellAction.listTools
      ∧ shell_dispatch "4" = ShellAction.listTools ∧
    shell_dispatch "prompts" = ShellAction.listPrompts
      ∧ shell_dispatch "5" = ShellAction.listPrompts ∧
    shell_dispatch "help" = ShellAction.showHelp
      ∧ shell_dispatch "6" = ShellAction.showHelp ∧
    shell_dispatch "quit" = ShellAction.quitShell
      ∧ shell_dispatch "7" = ShellAction.quitShell := by
  decide

/-- C8: when the context is empty, `analyze_with_gemini` submits the
instruction alone; when it is non-empty, it submits the context, a blank
line, then the instruction. -/
theorem analyze_with_gemini_prompt_formation (o : Oracles) (prompt context : String) :
    (context = "" →
      (analyze_with_gemini o prompt context).2
        = [.printMsg "🧠 Analyzing with Gemini...", .geminiCall prompt]) ∧
    (context ≠ "" →
      (analyze_with_gemini o prompt context).2
        = [.printMsg "🧠 Analyzing with Gemini...",
           .geminiCall (context ++ "\n\n" ++ prompt)]) := by
  constructor <;> intro h <;>
    rw [analyze_with_gemini_events] <;>
    simp [gemini_full_prompt, h]

/-- Witness for C8 at an empty and a non-empty context. -/
theorem analyze_with_gemini_prompt_formation_witness :
    (analyze_with_gemini mock_oracles "inst" "").2
      = [.printMsg "🧠 Analyzing with Gemini...", .geminiCall "inst"] ∧
    (analyze_with_gemini mock_oracles "inst" "ctx").2
      = [.printMsg "🧠 Analyzing with Gemini...", .geminiCall "ctx\n\ninst"] :=
  ⟨(analyze_with_gemini_prompt_formation mock_oracles "inst" "").1 rfl,
   (analyze_with_gemini_prompt_formation mock_oracles "inst" "ctx").2 (by decide)⟩

/-- C5: when the notification tool is absent from the catalog,
`send_ci_alert` prints the unavailability report and returns with zero
tool invocations and zero AI calls in its trace. -/
theorem send_ci_alert_tool_absent (st : ClientState) (o : Oracles)
    (h : st.availableTools.contains "send_slack_notification" = false) :
    send_ci_alert st o
      = [.printMsg "📢 Sending CI Alert...", .printMsg (sepLine 25),
         .printMsg "❌ Slack notification tool not available"] ∧
    (send_ci_alert st o).any isToolCallEvent = false ∧
    (send_ci_alert st o).any isGeminiEvent = false ∧
    Event.printMsg "❌ Slack notification tool not available" ∈ send_ci_alert st o := by
  have he : send_ci_alert st o
      = [.printMsg "📢 Sending CI Alert...", .printMsg (sepLine 25),
         .printMsg "❌ Slack notification tool not available"] := by
    unfold send_ci_alert
    rw [if_pos h]
    rfl
  refine ⟨he, ?_, ?_, ?_⟩ <;> rw [he] <;> simp [isToolCallEvent, isGeminiEvent]

/-- A client state whose catalog lacks the notification tool. -/
def c5_state : ClientState := ⟨true, ["get_workflow_status"], []⟩

/-- Witness for C5 at a concrete catalog without the notification tool. -/
theorem send_ci_alert_tool_absent_witness :
    c5_state.availableTools.contains "send_slack_notification" = false ∧
    (send_ci_alert c5_state mock_oracles).any isToolCallEvent = false ∧
    (send_ci_alert c5_state mock_oracles).any isGeminiEvent = false :=
  ⟨rfl,
   (send_ci_alert_tool_absent c5_state mock_oracles rfl).2.1,
   (send_ci_alert_tool_absent c5_state mock_oracles rfl).2.2.1⟩

/-- A connected client with the PR-analysis tools in its catalog. -/
def c1_state : ClientState :=
  ⟨true, ["analyze_file_changes", "suggest_template", "send_slack_notification"], []⟩

/-- Oracles whose diff-fetch response decodes to a dict carrying an
`error` key. -/
def c1_oracles : Oracles :=
  { callTool := fun _ _ => ⟨["DIFF-RESPONSE"]⟩
    gemini := fun _ => .ok "AI SUMMARY"
    parseJson := fun _ => some (Json.obj [("error", Json.str "git diff failed")])
    pyperclipAvailable := false }

/-- C1 counterexample: with a diff-fetch response whose parsed JSON
carries an `error` key, `generate_pr_description` still invokes the AI
wrapper — the summarize call inside `analyze_pr_changes` runs before the
error check — refuting the claim's "does not invoke the AI wrapper". -/
theorem generate_pr_description_error_key_still_calls_ai :
    pyIn "error" (parse_changes_data c1_oracles "DIFF-RESPONSE") = true ∧
    ((generate_pr_description c1_state c1_oracles none "main" "4").events.any
        isGeminiEvent) = true := by
  constructor <;> rfl

/-- C1 amended: when the parsed diff-fetch response carries an `error`
key, the PR Analysis Workflow reports the error and stops — the
template-suggestion tool is never invoked and the trace holds exactly
one AI call, the summarize call made unconditionally inside
`analyze_pr_changes` before the error check. -/
theorem generate_pr_description_stops_after_diff_error
    (st : ClientState) (o : Oracles) (wd : Option String) (bb choice : String)
    (hconn : st.connected = true)
    (htool : st.availableTools.contains "analyze_file_changes" = true)
    (herr : pyIn "error"
        (parse_changes_data o
          (firstText (o.callTool "analyze_file_changes" (changes_args bb wd)))) = true) :
    ((generate_pr_description st o wd bb choice).events.any
        (isToolCallNamed "suggest_template")) = false ∧
    ((generate_pr_description st o wd bb choice).events.filter isGeminiEvent).length = 1 ∧
    Event.printMsg ("❌ Error analyzing changes: "
        ++ (((jsonLookup (parse_changes_data o
              (firstText (o.callTool "analyze_file_changes" (changes_args bb wd))))
              "error").map Json.pyStr).getD ""))
      ∈ (generate_pr_description st o wd bb choice).events := by
  have hcall : call_mcp_tool st o "analyze_file_changes" (changes_args bb wd)
      = { events := [.printMsg "🔧 Calling tool: analyze_file_changes",
                     .toolCall "analyze_file_changes" (changes_args bb wd)],
          result := .ok (firstText (o.callTool "analyze_file_changes"
                          (changes_args bb wd))) } := by
    unfold call_mcp_tool
    rw [if_neg (by simp [hconn]), if_neg (by simpa using htool)]
    rfl
  have hA : analyze_pr_changes st o bb wd
      = { events := [.printMsg "🔧 Calling tool: analyze_file_changes",
                     .toolCall "analyze_file_changes" (changes_args bb wd),
                     .printMsg "🧠 Analyzing with Gemini...",
                     .geminiCall (gemini_full_prompt analysis_prompt
                       (firstText (o.callTool "analyze_file_changes"
                         (changes_args bb wd))))],
          result := .ok { changes_data := parse_changes_data o
                            (firstText (o.callTool "analyze_file_changes"
                              (changes_args bb wd))),
                          ai_analysis := (analyze_with_gemini o analysis_prompt
                            (firstText (o.callTool "analyze_file_changes"
                              (changes_args bb wd)))).1 } } := by
    unfold analyze_pr_changes
    rw [hcall]
    unfold PyResult.andThen
    simp [analyze_with_gemini_events]
  have hG : (generate_pr_description st o wd bb choice).events
      = [.printMsg "🔍 Analyzing PR Changes...", .printMsg (sepLine 40),
         .printMsg "🔧 Calling tool: analyze_file_changes",
         .toolCall "analyze_file_changes" (changes_args bb wd),
         .printMsg "🧠 Analyzing with Gemini...",
         .geminiCall (gemini_full_prompt analysis_prompt
           (firstText (o.callTool "analyze_file_changes" (changes_args bb wd)))),
         .printMsg ("❌ Error analyzing changes: "
           ++ (((jsonLookup (parse_changes_data o
                 (firstText (o.callTool "analyze_file_changes" (changes_args bb wd))))
                 "error").map Json.pyStr).getD ""))] := by
    unfold generate_pr_description
    rw [hA]
    unfold PyResult.andThen
    simp [herr]
  refine ⟨?_, ?_, ?_⟩ <;> rw [hG] <;>
    simp [isToolCallNamed, isGeminiEvent]

/-- Witness for the amended C1 at a concrete error-carrying response. -/
theorem generate_pr_description_stops_after_diff_error_witness :
    c1_state.connected = true ∧
    c1_state.availableTools.contains "analyze_file_changes" = true ∧
    pyIn "error" (parse_changes_data c1_oracles
      (firstText (c1_oracles.callTool "analyze_file_changes"
        (changes_args "main" none)))) = true ∧
    ((generate_pr_description c1_state c1_oracles none "main" "4").events.any
        (isToolCallNamed "suggest_template")) = false :=
  ⟨rfl, rfl, rfl,
   (generate_pr_description_stops_after_diff_error c1_state c1_oracles none "main" "4"
      rfl rfl rfl).1⟩

/-- C9: whatever string the AI returns at the classify step, the
workflow strips and lower-cases it and forwards it unchanged as the
`change_type` argument of the template-suggestion tool — there is no
membership test against the closed keyword set anywhere on the path. -/
theorem generate_pr_description_change_type_passthrough
    (st : ClientState) (o : Oracles) (wd : Option String) (bb choice : String)
    (pa : PRAnalysis)
    (hA : (analyze_pr_changes st o bb wd).result = .ok pa)
    (herr : pyIn "error" pa.changes_data = false)
    (htool : st.availableTools.contains "suggest_template" = true) :
    Event.toolCall "suggest_template"
      [("changes_summary", pa.ai_analysis),
       ("change_type", py_lower (py_strip
          (analyze_with_gemini o change_type_prompt pa.ai_analysis).1))]
      ∈ (generate_pr_description st o wd bb choice).events := by
  obtain ⟨s, hs⟩ : ∃ s, (call_mcp_tool st o "analyze_file_changes"
      (changes_args bb wd)).result = .ok s := by
    have h := hA
    unfold analyze_pr_changes at h
    exact andThen_ok_left h
  obtain ⟨hconn, -⟩ := call_mcp_tool_ok_conditions hs
  have hmem : Event.toolCall "suggest_template"
      [("changes_summary", pa.ai_analysis),
       ("change_type", py_lower (py_strip
          (analyze_with_gemini o change_type_prompt pa.ai_analysis).1))]
      ∈ (suggest_pr_template st o pa.ai_analysis
          (py_lower (py_strip
            (analyze_with_gemini o change_type_prompt pa.ai_analysis).1))).events := by
    unfold suggest_pr_template
    apply PyResult.events_mem_andThen
    unfold call_mcp_tool
    rw [if_neg (by simp [hconn]), if_neg (by simpa using htool)]
    simp
  unfold generate_pr_description
  simp only [PyResult.withEvents_events, List.mem_append]
  right
  rw [PyResult.andThen_events_of_ok _ hA]
  simp only [List.mem_append]
  right
  simp only [herr, Bool.false_eq_true, if_false, PyResult.withEvents_events,
    List.mem_append]
  right
  exact PyResult.events_mem_andThen hmem

/-- A connected client with the two PR-analysis tools. -/
def c9_state : ClientState := ⟨true, ["analyze_file_changes", "suggest_template"], []⟩

/-- Oracles whose classify answer is the out-of-set string
`"  BaNaNa  "`. -/
def c9_oracles : Oracles :=
  { callTool := fun name _ =>
      if name = "analyze_file_changes" then ⟨["DIFF"]⟩ else ⟨["TPL"]⟩
    gemini := fun _ => .ok "  BaNaNa  "
    parseJson := fun _ => some (Json.obj [("files", Json.str "a.py")])
    pyperclipAvailable := false }

/-- Witness for C9: the out-of-set classify answer is stripped,
lower-cased to `"banana"`, and forwarded unchanged to the template
tool. -/
theorem generate_pr_description_change_type_passthrough_witness :
    (analyze_pr_changes c9_state c9_oracles "main" none).result
      = .ok { changes_data := Json.obj [("files", Json.str "a.py")],
              ai_analysis := "  BaNaNa  " } ∧
    pyIn "error" (Json.obj [("files", Json.str "a.py")]) = false ∧
    c9_state.availableTools.contains "suggest_template" = true ∧
    py_lower (py_strip
      (analyze_with_gemini c9_oracles change_type_prompt "  BaNaNa  ").1) = "banana" ∧
    Event.toolCall "suggest_template"
      [("changes_summary", "  BaNaNa  "), ("change_type", "banana")]
      ∈ (generate_pr_description c9_state c9_oracles none "main" "4").events := by
  refine ⟨rfl, rfl, rfl, rfl, ?_⟩
  exact generate_pr_description_change_type_passthrough c9_state c9_oracles none "main" "4"
    { changes_data := Json.obj [("files", Json.str "a.py")], ai_analysis := "  BaNaNa  " }
    rfl rfl rfl

/-- A connected client holding only the notification tool. -/
def c10_state : ClientState := ⟨true, ["send_slack_notification"], []⟩

/-- Oracles for the post-generation menu runs. -/
def c10_oracles : Oracles :=
  { callTool := fun _ _ => ⟨["ok"]⟩
    gemini := fun _ => .ok ""
    parseJson := fun _ => none
    pyperclipAvailable := false }

/-- C10 counterexample: for a description shorter than 500 characters
the slice `[:500]` returns all of it, so the forwarded message contains
the whole description — refuting "exactly the first 500 characters" and
"the full description is never forwarded". -/
theorem post_generation_short_description_forwarded_whole :
    ("A tiny PR description.".length < 500) ∧
    Event.toolCall "send_slack_notification"
      [("message", "📝 New PR Ready for Review (bug)\n\nA tiny PR description....")]
      ∈ (post_generation_options c10_state c10_oracles "2"
          "A tiny PR description." "bug").events ∧
    py_in_str "A tiny PR description."
      "📝 New PR Ready for Review (bug)\n\nA tiny PR description...." = true := by
  refine ⟨by decide, by decide, by decide⟩

/-- C10 amended: when the operator chooses the Slack option, the session
is live and the notification tool is in the catalog, the forwarded
message is the header naming the change type, a blank line, the first
min(500, length) characters of the description and the suffix "...";
at most 500 characters of the description are ever forwarded. -/
theorem post_generation_slack_sends_truncated
    (st : ClientState) (o : Oracles) (desc ct : String)
    (hconn : st.connected = true)
    (htool : st.availableTools.contains "send_slack_notification" = true) :
    Event.toolCall "send_slack_notification"
      [("message", "📝 New PR Ready for Review (" ++ ct ++ ")\n\n"
          ++ py_take desc 500 ++ "...")]
      ∈ (post_generation_options st o "2" desc ct).events ∧
    (py_take desc 500).data.length ≤ 500 := by
  constructor
  · unfold post_generation_options
    rw [if_neg (show ¬(py_strip "2" = "1") by decide),
        if_pos (show py_strip "2" = "2" by decide), if_pos htool]
    simp only [PyResult.withEvents_events, List.mem_append]
    right
    apply PyResult.events_mem_andThen
    unfold call_mcp_tool
    rw [if_neg (by simp [hconn]), if_neg (by simpa using htool)]
    simp
  · simp [py_take]

/-- Witness for the amended C10 at a one-character description. -/
theorem post_generation_slack_sends_truncated_witness :
    c10_state.connected = true ∧
    c10_state.availableTools.contains "send_slack_notification" = true ∧
    Event.toolCall "send_slack_notification"
      [("message", "📝 New PR Ready for Review (docs)\n\nD...")]
      ∈ (post_generation_options c10_state c10_oracles "2" "D" "docs").events := by
  refine ⟨rfl, rfl, ?_⟩
  exact (post_generation_slack_sends_truncated c10_state c10_oracles "D" "docs" rfl rfl).1

end PRAgent
